/-
Verification of the 2D rigid-body physics engine (Body.js, Circle.js,
Polygon, Collision.js) against its natural-language specification.

The JavaScript sources are shallowly embedded over the real numbers:
JS `number` values are modelled as `ℝ`, `Math.sqrt` as `Real.sqrt`,
`Math.PI` as `Real.pi`, and the JS remainder operator `%` as
truncated-division remainder.  Mutating methods become pure functions on
explicit state.  Code that throws is modelled with `Except String`.
-/
import Mathlib

namespace Phys

noncomputable section

open Real

/-! ## Vector and Line primitives (class Vector, class Line) -/

/-- The `Vector` class: a 2D vector with an `x` and `y` component. -/
structure Vec where
  x : ℝ
  y : ℝ

namespace Vec

/-- The `magnitude` getter: `Math.sqrt(Math.pow(this.x, 2) + Math.pow(this.y, 2))`. -/
def magnitude (v : Vec) : ℝ := Real.sqrt (v.x ^ 2 + v.y ^ 2)

/-- The `magnitude` setter: `factor = mag / this.magnitude; this.x *= factor; this.y *= factor`. -/
def setMagnitude (v : Vec) (mag : ℝ) : Vec :=
  let factor := mag / v.magnitude
  ⟨v.x * factor, v.y * factor⟩

/-- The `inverse` getter: `new Vector(-this.x, -this.y)`. -/
def inverse (v : Vec) : Vec := ⟨-v.x, -v.y⟩

/-- The method `multipliedBy(scalar)`: `new Vector(this.x * scalar, this.y * scalar)`. -/
def multipliedBy (v : Vec) (scalar : ℝ) : Vec := ⟨v.x * scalar, v.y * scalar⟩

/-- The method `dividedBy(scalar)`: `new Vector(this.x / scalar, this.y / scalar)`. -/
def dividedBy (v : Vec) (scalar : ℝ) : Vec := ⟨v.x / scalar, v.y / scalar⟩

/-- The in-place method `add(vector)`, as a pure function. -/
def addV (v w : Vec) : Vec := ⟨v.x + w.x, v.y + w.y⟩

/-- The in-place method `subtract(vector)`, as a pure function. -/
def subtractV (v w : Vec) : Vec := ⟨v.x - w.x, v.y - w.y⟩

/-- The static variadic `Vector.sum(...vectors)`: starts from `(0, 0)` and adds
each argument componentwise. -/
def sum (vectors : List Vec) : Vec :=
  vectors.foldl (fun acc v => ⟨acc.x + v.x, acc.y + v.y⟩) ⟨0, 0⟩

/-- The static variadic `Vector.difference(minuend, ...subtrahends)`. -/
def difference (minuend : Vec) (subtrahends : List Vec) : Vec :=
  subtrahends.foldl (fun acc v => ⟨acc.x - v.x, acc.y - v.y⟩) minuend

/-- The static variadic `Vector.dot(...vectors)`: componentwise products starting
from `(1, 1)`, then the components are added.  All call sites in the engine pass
exactly two vectors. -/
def dot (vectors : List Vec) : ℝ :=
  let p := vectors.foldl (fun (acc : ℝ × ℝ) v => (acc.1 * v.x, acc.2 * v.y)) (1, 1)
  p.1 + p.2

/-- The method `unit()`: `new Vector(this.x / this.magnitude, this.y / this.magnitude)`. -/
def unit (v : Vec) : Vec := ⟨v.x / v.magnitude, v.y / v.magnitude⟩

/-- JS `Math.atan2(y, x)` (for finite arguments), case-split on the sign of `x`. -/
def jsAtan2 (y x : ℝ) : ℝ :=
  if 0 < x then Real.arctan (y / x)
  else if x < 0 then
    (if 0 ≤ y then Real.arctan (y / x) + π else Real.arctan (y / x) - π)
  else
    (if 0 < y then π / 2 else if y < 0 then -(π / 2) else 0)

/-- The `angle` getter: `atan2(-y, x)` wrapped into `[0, 2π)` by adding `2π` when
negative. -/
def angleGet (v : Vec) : ℝ :=
  let angle := jsAtan2 (-v.y) v.x
  if angle < 0 then angle + π * 2 else angle

/-- The `angle` setter: `x = mag·cos(angle)`, `y = -(mag·sin(angle))`, with the
magnitude preserved. -/
def angleSet (v : Vec) (angle : ℝ) : Vec :=
  let mag := v.magnitude
  ⟨mag * Real.cos angle, -(mag * Real.sin angle)⟩

/-- The method `rotate(angle, origin)`: `subtract(origin); this.angle += angle;
add(origin)`. -/
def rotateAbout (v : Vec) (angle : ℝ) (origin : Vec) : Vec :=
  let d := subtractV v origin
  addV (angleSet d (angleGet d + angle)) origin

end Vec

/-- The `Line` class: a segment between two points, used for polygon sides. -/
structure Line where
  pointA : Vec
  pointB : Vec

/-! ## Shapes and the Body state (class Body, class Circle, class Polygon) -/

/-- Closed shape variants of a body: `Circle` carries a radius, `Polygon` carries
its (already centroid-angle-sorted) vertex ring in global space. -/
inductive Shape where
  | circle (radius : ℝ)
  | polygon (vertices : List Vec)

/-- The state of one `Body` (fields backed by the getter/setter pairs of
Body.js).  `rotationalInertia` is `undefined` on a plain `Body` and is only
given a value by the subclasses; the JS `undefined` (falsy) is modelled as `0`.
A static body stores `mass = Infinity` in JS, which has no counterpart in `ℝ`;
theorems that depend on the mass value carry explicit hypotheses on it. -/
structure Body where
  shape : Shape
  position : Vec
  velocity : Vec
  acceleration : Vec
  force : Vec
  angle : ℝ
  angularVelocity : ℝ
  angularAcceleration : ℝ
  torque : ℝ
  mass : ℝ
  rotationalInertia : ℝ
  isStatic : Bool

/-- The `World` fields read by the integrator: `gravity` and `force`. -/
structure World where
  gravity : Vec
  force : Vec

/-- Runtime type test `body instanceof Polygon`. -/
def isPolygon (b : Body) : Bool :=
  match b.shape with
  | .polygon _ => true
  | _ => false

/-- Runtime type test `body instanceof Circle`. -/
def isCircle (b : Body) : Bool :=
  match b.shape with
  | .circle _ => true
  | _ => false

/-- The `radius` property of a circle body (undefined in JS for non-circles;
read only on circles by the collision routines). -/
def Body.radius (b : Body) : ℝ :=
  match b.shape with
  | .circle r => r
  | _ => 0

/-- The `vertices` property of a polygon body (undefined in JS for non-polygons;
read only on polygons by the collision routines). -/
def Body.vertices (b : Body) : List Vec :=
  match b.shape with
  | .polygon vs => vs
  | _ => []

/-- JS `Math.min(...list)` on a nonempty spread (the engine only ever spreads
nonempty vertex/projection lists; JS would give `Infinity` on an empty spread,
which has no counterpart in `ℝ`, so the empty case defaults to `0`). -/
def jsMin (l : List ℝ) : ℝ :=
  match l with
  | [] => 0
  | a :: rest => rest.foldl min a

/-- JS `Math.max(...list)` on a nonempty spread (see `jsMin`). -/
def jsMax (l : List ℝ) : ℝ :=
  match l with
  | [] => 0
  | a :: rest => rest.foldl max a

/-- The bounding box record `{x, y, w, h}` (top-left corner, width, height). -/
structure Box where
  x : ℝ
  y : ℝ
  w : ℝ
  h : ℝ

/-- The `boundingBox` getter: Circle.js returns the square of side `2·radius`
centered on the position; Polygon (Polygon.js) returns min/max over the vertex
coordinates. -/
def Body.boundingBox (b : Body) : Box :=
  match b.shape with
  | .circle r =>
      ⟨b.position.x - r, b.position.y - r, r * 2, r * 2⟩
  | .polygon vs =>
      let xs := vs.map Vec.x
      let ys := vs.map Vec.y
      ⟨jsMin xs, jsMin ys, jsMax xs - jsMin xs, jsMax ys - jsMin ys⟩

/-! ## Polygon side construction (Polygon.getSides) -/

/-- Consecutive pairs of a list, as `Line`s: the body of the `reduce` in
`Polygon.getSides`, which pushes `new Line(v, vs[i+1])` for every index
`i < vs.length - 1`. -/
def consecPairs : List Vec → List Line
  | a :: b :: rest => Line.mk a b :: consecPairs (b :: rest)
  | _ => []

/-- Static `Polygon.getSides(vertices)`: closes the ring by appending the first
vertex and takes consecutive pairs.  (JS would build a degenerate line from
`undefined` on an empty vertex list; polygons always have vertices.) -/
def getSides (vertices : List Vec) : List Line :=
  match vertices with
  | [] => []
  | v0 :: _ => consecPairs (vertices ++ [v0])

/-! ## JS remainder and angle normalization (Body.rotate) -/

/-- Truncation toward zero, as used by the JS `%` operator. -/
def jsTrunc (q : ℝ) : ℤ := if q < 0 then ⌈q⌉ else ⌊q⌋

/-- The JS remainder `n % d` for finite operands and `d ≠ 0`:
`n - d · trunc(n / d)` (the result keeps the sign of the dividend). -/
def jsRem (n d : ℝ) : ℝ := n - d * (jsTrunc (n / d) : ℝ)

/-- Body.js `rotate(angle)` acting on the stored angle:
`this.angle += angle` and then the literal normalization of lines 168-172.
Note the second branch is `Math.PI * 2 + (this.angle % Math.PI * 2)`, which by
JS operator precedence is `2π + (angle % π) * 2`, not `2π + (angle % 2π)`. -/
def rotateAngle (angle θ : ℝ) : ℝ :=
  let a := angle + θ
  if a > π * 2 then jsRem a (π * 2)
  else if a < 0 then π * 2 + jsRem a π * 2
  else a

/-- Modelled from the spec: the intended wrap of a negative accumulated angle,
`2π + (angle mod 2π)` (spec section 4.2 step 6), used to exhibit how the code
diverges from it. -/
def specNegativeWrap (a : ℝ) : ℝ := π * 2 + jsRem a (π * 2)

/-! ## Body methods: translate, rotate, force, and the per-step update chain -/

/-- Method `translate(translation)`: `position = Vector.sum(position, t)`; the
Polygon override additionally `add`s the translation to every vertex (the
centroid, unused by the verified routines, is not tracked). -/
def Body.translate (b : Body) (translation : Vec) : Body :=
  match b.shape with
  | .polygon vs =>
      { b with
        shape := .polygon (vs.map (fun v => Vec.addV v translation)),
        position := Vec.sum [b.position, translation] }
  | _ => { b with position := Vec.sum [b.position, translation] }

/-- Method `rotate(angle)`: the Polygon override first rotates every vertex
about `position` and then delegates to Body.rotate, which updates `angle` with
the (buggy) normalization `rotateAngle`. -/
def Body.rotate (b : Body) (θ : ℝ) : Body :=
  match b.shape with
  | .polygon vs =>
      { b with
        shape := .polygon (vs.map (fun v => Vec.rotateAbout v θ b.position)),
        angle := rotateAngle b.angle θ }
  | _ => { b with angle := rotateAngle b.angle θ }

/-- Method `updateAcceleration()`: skipped when static, otherwise
`(gravity·mass + world.force + force) / mass` (Body.js lines 237-244). -/
def Body.updateAcceleration (w : World) (b : Body) : Body :=
  if b.isStatic then b
  else
    { b with
      acceleration :=
        (Vec.sum [w.gravity.multipliedBy b.mass, w.force, b.force]).dividedBy b.mass }

/-- Method `updateVelocity()`: `velocity.add(acceleration)`. -/
def Body.updateVelocity (b : Body) : Body :=
  { b with velocity := Vec.addV b.velocity b.acceleration }

/-- Method `updatePosition()`: `translate(velocity)`. -/
def Body.updatePosition (b : Body) : Body :=
  b.translate b.velocity

/-- Method `updateAngularAcceleration()`: skipped when static, otherwise
`torque / rotationalInertia`. -/
def Body.updateAngularAcceleration (b : Body) : Body :=
  if b.isStatic then b
  else { b with angularAcceleration := b.torque / b.rotationalInertia }

/-- Method `updateAngularVelocity()`: `angularVelocity += angularAcceleration`. -/
def Body.updateAngularVelocity (b : Body) : Body :=
  { b with angularVelocity := b.angularVelocity + b.angularAcceleration }

/-- Method `updateAngle()`: `rotate(angularVelocity)`. -/
def Body.updateAngle (b : Body) : Body :=
  b.rotate b.angularVelocity

/-- Method `update()`: the six-step per-tick transition of Body.js lines
208-215, in source order. -/
def Body.update (w : World) (b : Body) : Body :=
  ((((Body.updateAcceleration w b).updateVelocity).updatePosition)
    |>.updateAngularAcceleration
    |>.updateAngularVelocity
    |>.updateAngle)

/-! ## Collision detection and resolution (Collision.js) -/

/-- The error message of the `throw` in `separatingAxis` (Collision.js line 123). -/
def satContractMsg : String := "One of the bodies must be a polygon to use the SAT"

/-- The JS `TypeError` raised when the minimum scan never fires: the index stays
`-1`, `axes[-1]` is `undefined`, and reading `.x` on it faults (line 147). -/
def satIndexErrMsg : String := "TypeError: axes[-1] is undefined"

/-- Function `detectBoxBox(bbA, bbB)`: the four nested strict-inequality tests
of Collision.js lines 81-90. -/
def detectBoxBox (bbA bbB : Box) : Bool :=
  if bbA.x + bbA.w > bbB.x then
    if bbB.x + bbB.w > bbA.x then
      if bbA.y + bbA.h > bbB.y then
        (if bbB.y + bbB.h > bbA.y then true else false)
      else false
    else false
  else false

/-- Function `detectCircleCircle(circleA, circleB)` (Collision.js lines 99-107):
`false` when the center distance exceeds the radii sum, otherwise the MTV
`diff.unit().multipliedBy(radiiAdded - distance)` (applied to the first body by
the convention of `resolveCollision`). -/
def detectCircleCircle (circleA circleB : Body) : Option Vec :=
  let diff := Vec.difference circleA.position [circleB.position]
  let distance := diff.magnitude
  let radiiAdded := circleA.radius + circleB.radius
  if distance > radiiAdded then none
  else some (diff.unit.multipliedBy (radiiAdded - distance))

/-- Tag of the body whose projection minimum is in front on an axis (the JS
strings given as `body: 'a'` / `body: 'b'`). -/
inductive FrontTag where
  | a
  | b
deriving DecidableEq

/-- The `{min, max}` record returned by the projection helpers. -/
structure Projections where
  min : ℝ
  max : ℝ

/-- The `{body, penetration}` record returned by `getPenetration`. -/
structure PenRec where
  body : FrontTag
  penetration : ℝ

/-- Function `projectPolygon(polygon, axis)`: min and max dot product of the
vertices with the axis (Collision.js lines 219-222). -/
def projectPolygon (polygon : Body) (axis : Vec) : Projections :=
  let projections := polygon.vertices.map (fun v => Vec.dot [v, axis])
  ⟨jsMin projections, jsMax projections⟩

/-- Function `projectCircle(circle, axis)`: dot products of
`position ∓ radius·axis` with the axis (Collision.js lines 230-234). -/
def projectCircle (circle : Body) (axis : Vec) : Projections :=
  ⟨Vec.dot [Vec.difference circle.position [axis.multipliedBy circle.radius], axis],
   Vec.dot [Vec.sum [circle.position, axis.multipliedBy circle.radius], axis]⟩

/-- Function `getPenetration(bodyA, bodyB, axis)` (Collision.js lines 201-211):
the body whose projection minimum is larger is tagged front, and the
penetration is the clamped overlap `max(other.max - front.min, 0)`. -/
def getPenetration (bodyA bodyB : Body) (axis : Vec) : PenRec :=
  let projectionsA := if isPolygon bodyA then projectPolygon bodyA axis
                      else projectCircle bodyA axis
  let projectionsB := if isPolygon bodyB then projectPolygon bodyB axis
                      else projectCircle bodyB axis
  if projectionsA.min > projectionsB.min then
    ⟨.a, max (projectionsB.max - projectionsA.min) 0⟩
  else
    ⟨.b, max (projectionsA.max - projectionsB.min) 0⟩

/-- Function `getNormals(sides)`: for each side the vector
`new Vector(-axis.y, axis.x)` with `axis = pointB - pointA`. -/
def getNormals (sides : List Line) : List Vec :=
  sides.map (fun s =>
    let axis := Vec.difference s.pointB [s.pointA]
    Vec.mk (-axis.y) axis.x)

/-- Function `circleAxes(circle, polygon)`: one axis from the circle center to
each polygon vertex. -/
def circleAxes (circle polygon : Body) : List Vec :=
  polygon.vertices.map (fun v => Vec.difference circle.position [v])

/-- Function `getAxes(bodyA, bodyB)` (Collision.js lines 159-168): unit edge
normals for a polygon operand, unit center-to-vertex axes for a circle operand. -/
def getAxes (bodyA bodyB : Body) : List Vec :=
  (if isPolygon bodyA then (getNormals (getSides bodyA.vertices)).map Vec.unit
   else (circleAxes bodyA bodyB).map Vec.unit)
  ++ (if isPolygon bodyB then (getNormals (getSides bodyB.vertices)).map Vec.unit
      else (circleAxes bodyB bodyA).map Vec.unit)

/-- The scan of Collision.js lines 137-144: running index `i`, best index so
far (`none` encodes the initial `-1`) and best penetration so far, updated on a
strict `<`. -/
def scanSmallest : List ℝ → ℕ → Option ℕ → ℝ → Option ℕ × ℝ
  | [], _, idx, small => (idx, small)
  | p :: rest, i, idx, small =>
    if p < small then scanSmallest rest (i + 1) (some i) p
    else scanSmallest rest (i + 1) idx small

/-- Function `separatingAxis(bodyA, bodyB)` (Collision.js lines 120-151):
throws without a polygon operand; reports no collision when some penetration is
zero; otherwise scans for the smallest penetration starting from the sentinel
`10000000` and index `-1`, and builds the MTV from the winning axis, negating
it when the front body on that axis was tagged `'b'`. -/
def separatingAxis (bodyA bodyB : Body) : Except String (Option Vec) :=
  if ¬(isPolygon bodyA || isPolygon bodyB) then .error satContractMsg
  else
    let axes := getAxes bodyA bodyB
    let tmp := axes.map (fun a => getPenetration bodyA bodyB a)
    let bodies := tmp.map PenRec.body
    let penetrations := tmp.map PenRec.penetration
    if (0 : ℝ) ∈ penetrations then .ok none
    else
      match (scanSmallest penetrations 0 none 10000000).1 with
      | none => .error satIndexErrMsg
      | some i =>
        let mtv := (axes.getD i ⟨0, 0⟩).setMagnitude (penetrations.getD i 0)
        .ok (some (if bodies.getD i .a = .b then mtv.multipliedBy (-1) else mtv))

/-- Function `detectCollision(bodyA, bodyB)` (Collision.js lines 7-13): bounding
boxes first, then circle-circle or SAT by runtime type.  (With both branches
missed JS falls through returning `undefined`, which is falsy like `false`;
the shape set is closed so this cannot happen.) -/
def detectCollision (bodyA bodyB : Body) : Except String (Option Vec) :=
  if ¬ detectBoxBox bodyA.boundingBox bodyB.boundingBox then .ok none
  else if isCircle bodyA && isCircle bodyB then .ok (detectCircleCircle bodyA bodyB)
  else if isPolygon bodyA || isPolygon bodyB then separatingAxis bodyA bodyB
  else .ok none

/-- Function `getNewVelocities(bodyA, bodyB)` (Collision.js lines 25-47): the
closed-form 2D elastic-collision update, returned as the pair `(a, b)`. -/
def getNewVelocities (bodyA bodyB : Body) : Vec × Vec :=
  let v1 := bodyA.velocity
  let v2 := bodyB.velocity
  let x1 := bodyA.position
  let x2 := bodyB.position
  let m1 := bodyA.mass
  let m2 := bodyB.mass
  let vDiff1 := Vec.difference v1 [v2]
  let vDiff2 := vDiff1.multipliedBy (-1)
  let xDiff1 := Vec.difference x1 [x2]
  let xDiff2 := xDiff1.multipliedBy (-1)
  let f1 := (2 * m2) / (m1 + m2)
  let f2 := Vec.dot [vDiff1, xDiff1] / xDiff1.magnitude ^ 2
  let v1f := Vec.difference v1 [xDiff1.multipliedBy (f1 * f2)]
  let f3 := (2 * m1) / (m1 + m2)
  let f4 := Vec.dot [vDiff2, xDiff2] / xDiff2.magnitude ^ 2
  let v2f := Vec.difference v2 [xDiff2.multipliedBy (f3 * f4)]
  (v1f, v2f)

/-- The `velocity` setter: `velocity.set(newVelocity)` replaces both components. -/
def Body.setVelocity (b : Body) (v : Vec) : Body := { b with velocity := v }

/-- Function `resolveCollision(bodyA, bodyB)` (Collision.js lines 56-72):
detection, then separation (`bodyB` moved by the inverse MTV when `bodyA` is
static, otherwise `bodyA` moved by the MTV), then the new velocities assigned
to each non-static body.  A thrown detection error propagates before any
mutation, leaving both bodies untouched. -/
def resolveCollision (bodyA bodyB : Body) : Except String (Body × Body) :=
  match detectCollision bodyA bodyB with
  | .error e => .error e
  | .ok none => .ok (bodyA, bodyB)
  | .ok (some mtv) =>
    let sep : Body × Body :=
      if bodyA.isStatic then (bodyA, bodyB.translate (mtv.multipliedBy (-1)))
      else (bodyA.translate mtv, bodyB)
    let velocitiesAfter := getNewVelocities sep.1 sep.2
    let a2 := if ¬ sep.1.isStatic then sep.1.setVelocity velocitiesAfter.1 else sep.1
    let b2 := if ¬ sep.2.isStatic then sep.2.setVelocity velocitiesAfter.2 else sep.2
    .ok (a2, b2)

/-! ## The mass setter and rotational inertia (Body.js lines 106-113, Circle.js
lines 28-30)

Body.js defines the property `rotationalInertia` through
`Object.defineProperties` with only `value`, `configurable` and `enumerable`
given, so `writable` defaults to `false`; Circle.js redefines it with only a
new `value`, which keeps `writable: false`.  Class bodies are strict-mode code,
so the compound assignment `this.rotationalInertia *= newMass / mass` inside
the `mass` setter throws a `TypeError` whenever the property is read (truthy)
on a shape subclass - before `mass = newMass` runs. -/

/-- The `TypeError` message for the strict-mode write to the non-writable
`rotationalInertia` property. -/
def readOnlyErrMsg : String := "TypeError: cannot assign to read only property"

/-- The `mass` setter of Body.js lines 109-112 with the property-attribute
semantics above: on a plain `Body` (falsy `rotationalInertia`, modelled `0`)
the mass is updated; on a shape subclass the rescaling write throws first. -/
def Body.setMass (b : Body) (newMass : ℝ) : Except String Body :=
  if b.rotationalInertia ≠ 0 then .error readOnlyErrMsg
  else .ok { b with mass := newMass }

/-- Modelled from the spec: the intended mass setter ("rescale rotational
inertia proportionally on mass change", spec sections 3 and 9), used to exhibit
the divergence of the code from it. -/
def specSetMass (b : Body) (newMass : ℝ) : Body :=
  { b with
    mass := newMass,
    rotationalInertia :=
      if b.rotationalInertia ≠ 0 then b.rotationalInertia * (newMass / b.mass)
      else b.rotationalInertia }

/-- The Circle constructor (Circle.js): stores the radius and defines
`rotationalInertia = (1/2)·mass·radius²`. -/
def mkCircle (position : Vec) (radius mass : ℝ) (velocity : Vec) (isStatic : Bool) : Body :=
  { shape := .circle radius
    position := position
    velocity := velocity
    acceleration := ⟨0, 0⟩
    force := ⟨0, 0⟩
    angle := 0
    angularVelocity := 0
    angularAcceleration := 0
    torque := 0
    mass := mass
    rotationalInertia := (1 / 2) * mass * radius ^ 2
    isStatic := isStatic }

/-- A polygon body as stored after construction: the sorted vertex ring in
global space, with `rotationalInertia = (1/2)·mass·avgRadius²` left symbolic
(it plays no role in the collision claims). -/
def mkPolygon (position : Vec) (vertices : List Vec) (mass rotationalInertia : ℝ)
    (velocity : Vec) (isStatic : Bool) : Body :=
  { shape := .polygon vertices
    position := position
    velocity := velocity
    acceleration := ⟨0, 0⟩
    force := ⟨0, 0⟩
    angle := 0
    angularVelocity := 0
    angularAcceleration := 0
    torque := 0
    mass := mass
    rotationalInertia := rotationalInertia
    isStatic := isStatic }

/-! ## Heap model for the position getter/setter (Body.js lines 76-80)

The private `position` binding holds a mutable `Vector` object; the getter
returns `Object.assign({}, position)` - a fresh object with copied `x`/`y`
fields - while the setter writes through to the stored object via
`position.set(newPos)`.  To state the aliasing behaviour we model a heap of
`{x, y}` objects addressed by allocation index. -/

/-- A plain mutable `{x, y}` object on the heap. -/
structure PObj where
  x : ℝ
  y : ℝ

/-- A heap of `{x, y}` objects; a reference is an index into `cells`. -/
structure Heap where
  cells : List PObj

/-- Allocate a fresh object (as `Object.assign({}, source)` does), returning
the updated heap and the new reference. -/
def Heap.alloc (h : Heap) (o : PObj) : Heap × ℕ :=
  (⟨h.cells ++ [o]⟩, h.cells.length)

/-- Read the object behind a reference. -/
def Heap.read (h : Heap) (r : ℕ) : PObj :=
  h.cells.getD r ⟨0, 0⟩

/-- Mutate the `x` field of the object behind a reference. -/
def Heap.writeX (h : Heap) (r : ℕ) (v : ℝ) : Heap :=
  ⟨h.cells.set r ⟨v, (h.read r).y⟩⟩

/-- Mutate the `y` field of the object behind a reference. -/
def Heap.writeY (h : Heap) (r : ℕ) (v : ℝ) : Heap :=
  ⟨h.cells.set r ⟨(h.read r).x, v⟩⟩

/-- The piece of a Body that the `position` accessor pair closes over: the
reference to the private `position` object. -/
structure BodyRef where
  positionRef : ℕ

/-- The `position` getter: `Object.assign({}, position)` - allocates a detached
copy and returns a reference to it. -/
def positionGet (h : Heap) (b : BodyRef) : Heap × ℕ :=
  h.alloc (h.read b.positionRef)

/-- The `position` setter: `newPos => position.set(newPos)` - copies the given
components into the stored object in place. -/
def positionSet (h : Heap) (b : BodyRef) (newPos : PObj) : Heap :=
  ⟨h.cells.set b.positionRef newPos⟩

/-! ## Views of the SAT intermediate values (Collision.js lines 126-150) -/

/-- The tested axes of a SAT call (`axes`, Collision.js line 126). -/
def satAxes (bodyA bodyB : Body) : List Vec := getAxes bodyA bodyB

/-- The per-axis penetrations of a SAT call (`penetrations`, line 130). -/
def satPens (bodyA bodyB : Body) : List ℝ :=
  ((getAxes bodyA bodyB).map (fun a => getPenetration bodyA bodyB a)).map PenRec.penetration

/-- The per-axis front tags of a SAT call (`bodies`, line 129). -/
def satTags (bodyA bodyB : Body) : List FrontTag :=
  ((getAxes bodyA bodyB).map (fun a => getPenetration bodyA bodyB a)).map PenRec.body

/-- The MTV that lines 147-150 build from a winning index `j`: the axis scaled
to the penetration by the magnitude setter, negated when the front body on
that axis was `'b'`. -/
def satMtv (bodyA bodyB : Body) (j : ℕ) : Vec :=
  let mtv := ((satAxes bodyA bodyB).getD j ⟨0, 0⟩).setMagnitude ((satPens bodyA bodyB).getD j 0)
  if (satTags bodyA bodyB).getD j .a = .b then mtv.multipliedBy (-1) else mtv

/-- Index `j` is the first index of the minimum of `pens`: every entry is at
least `pens[j]`, and every earlier entry is strictly greater. -/
def FirstArgmin (pens : List ℝ) (j : ℕ) : Prop :=
  j < pens.length
  ∧ (∀ k, k < pens.length → pens.getD j 0 ≤ pens.getD k 0)
  ∧ (∀ k, k < j → pens.getD j 0 < pens.getD k 0)

/-! ## Concrete bodies, worlds and heaps used to instantiate the claims -/

/-- The circle of radius `5` at the origin. -/
def c8A : Body := mkCircle ⟨0, 0⟩ 5 1 ⟨0, 0⟩ false

/-- The circle of radius `5` at `(10, 0)`, exactly touching `c8A`. -/
def c8B : Body := mkCircle ⟨10, 0⟩ 5 1 ⟨0, 0⟩ false

/-- The circle of radius `5` at the origin used for the C4 witness. -/
def c4A : Body := mkCircle ⟨0, 0⟩ 5 1 ⟨0, 0⟩ false

/-- The circle of radius `5` at `(8, 0)` used for the C4 witness. -/
def c4B : Body := mkCircle ⟨8, 0⟩ 5 1 ⟨0, 0⟩ false

/-- The world with gravity `(0, 1)` and no world force, for the C3 instances. -/
def w0 : World := ⟨⟨0, 1⟩, ⟨0, 0⟩⟩

/-- A free unit-mass circle at the origin, at rest, for the C3 instances. -/
def b0 : Body := mkCircle ⟨0, 0⟩ 1 1 ⟨0, 0⟩ false

/-- The body pair for the C6 witness: equal unit masses, head-on geometry. -/
def c6A : Body := mkCircle ⟨0, 0⟩ 1 1 ⟨1, 0⟩ false

/-- The second body for the C6 witness, at rest at `(1, 0)`. -/
def c6B : Body := mkCircle ⟨1, 0⟩ 1 1 ⟨0, 0⟩ false

/-- The static radius-5 circle at the origin. -/
def c5A : Body := mkCircle ⟨0, 0⟩ 5 1 ⟨0, 0⟩ true

/-- The static radius-5 circle at `(8, 0)`, overlapping `c5A`. -/
def c5B : Body := mkCircle ⟨8, 0⟩ 5 1 ⟨0, 0⟩ true

/-- The dynamic radius-5 circle at the origin, at rest. -/
def c5W : Body := mkCircle ⟨0, 0⟩ 5 1 ⟨0, 0⟩ false

/-- The unit square with vertex ring `(1,0), (0,0), (0,1), (1,1)` (sorted by
centroid angle as the Polygon constructor stores it). -/
def sq1 : Body := mkPolygon ⟨1 / 2, 1 / 2⟩ [⟨1, 0⟩, ⟨0, 0⟩, ⟨0, 1⟩, ⟨1, 1⟩] 1 1 ⟨0, 0⟩ false

/-- The same square translated by `(1/2, 1/4)`, overlapping `sq1`. -/
def sq2 : Body :=
  mkPolygon ⟨1, 3 / 4⟩ [⟨3 / 2, 1 / 4⟩, ⟨1 / 2, 1 / 4⟩, ⟨1 / 2, 5 / 4⟩, ⟨3 / 2, 5 / 4⟩]
    1 1 ⟨0, 0⟩ false

/-- The axis-aligned square of half-extent `10^7` centered at the origin: on
every tested axis the penetration of the pair `(hugeSq, hugeSq)` is `2·10^7`,
at or above the scan sentinel. -/
def hugeSq : Body :=
  mkPolygon ⟨0, 0⟩ [⟨10000000, -10000000⟩, ⟨-10000000, -10000000⟩,
    ⟨-10000000, 10000000⟩, ⟨10000000, 10000000⟩] 1 1 ⟨0, 0⟩ false

/-- A one-object heap for the C10 witness. -/
def h10 : Heap := ⟨[⟨1, 2⟩]⟩

/-- The body whose position lives at heap index `0`. -/
def b10 : BodyRef := ⟨0⟩

/-! ## Basic evaluation lemmas -/

/-- Componentwise characterisation of equality of vectors. -/
lemma Vec.eq_iff (v w : Vec) : v = w ↔ v.x = w.x ∧ v.y = w.y := by
  cases v; cases w; simp

/-- The variadic dot on exactly two vectors is the usual dot product. -/
lemma dot_pair (a b : Vec) : Vec.dot [a, b] = a.x * b.x + a.y * b.y := by
  simp [Vec.dot]

/-- The variadic sum on exactly two vectors. -/
lemma sum_pair (a b : Vec) : Vec.sum [a, b] = ⟨a.x + b.x, a.y + b.y⟩ := by
  simp [Vec.sum]

/-- The variadic sum on exactly three vectors. -/
lemma sum_triple (a b c : Vec) : Vec.sum [a, b, c] = ⟨a.x + b.x + c.x, a.y + b.y + c.y⟩ := by
  simp [Vec.sum]

/-- The variadic difference on exactly one subtrahend. -/
lemma diff_one (a b : Vec) : Vec.difference a [b] = ⟨a.x - b.x, a.y - b.y⟩ := by
  simp [Vec.difference]

/-- Evaluate a square root at a perfect square. -/
lemma sqrt_eval (a b : ℝ) (hb : 0 ≤ b) (h : b ^ 2 = a) : Real.sqrt a = b := by
  rw [← h, Real.sqrt_sq hb]

/-- The magnitude of `unit(d)` scaled by a nonnegative factor is that factor,
for nonzero `d`. -/
lemma magnitude_unit_mul (d : Vec) (c : ℝ) (hd : ¬(d.x = 0 ∧ d.y = 0)) (hc : 0 ≤ c) :
    ((d.unit).multipliedBy c).magnitude = c := by
  have hs : 0 < d.x ^ 2 + d.y ^ 2 := by
    rcases not_and_or.mp hd with h | h
    · have : 0 < d.x ^ 2 := by positivity
      nlinarith [sq_nonneg d.y]
    · have : 0 < d.y ^ 2 := by positivity
      nlinarith [sq_nonneg d.x]
  have hm : 0 < d.magnitude := Real.sqrt_pos.mpr hs
  have hmsq : d.magnitude ^ 2 = d.x ^ 2 + d.y ^ 2 := Real.sq_sqrt hs.le
  simp only [Vec.unit, Vec.multipliedBy, Vec.magnitude] at *
  have hexp : (d.x / Real.sqrt (d.x ^ 2 + d.y ^ 2) * c) ^ 2
      + (d.y / Real.sqrt (d.x ^ 2 + d.y ^ 2) * c) ^ 2 = c ^ 2 := by
    field_simp
    nlinarith [hmsq]
  rw [hexp, Real.sqrt_sq hc]

/-! ## Claim C2 -/

/-- Claim C2 (code bug): the claim states that after `rotate(θ)` the angle
always lies in `[0, 2π)`, the negative case wrapping via `2π + (angle mod 2π)`.
The code violates both parts: rotating a zero-angle body by exactly `2π`
leaves the angle at `2π` (the guard is strict), and rotating it by `-π/2`
yields `π` - the precedence slip `2π + (angle % π)·2` - where the wrap the
spec states would give `3π/2`. -/
theorem rotate_normalization_bug :
    (Body.rotate (mkCircle ⟨0, 0⟩ 1 1 ⟨0, 0⟩ false) (π * 2)).angle = π * 2
    ∧ ¬ ((Body.rotate (mkCircle ⟨0, 0⟩ 1 1 ⟨0, 0⟩ false) (π * 2)).angle < π * 2)
    ∧ (Body.rotate (mkCircle ⟨0, 0⟩ 1 1 ⟨0, 0⟩ false) (-(π / 2))).angle = π
    ∧ specNegativeWrap (0 + -(π / 2)) = 3 * π / 2
    ∧ (π : ℝ) ≠ 3 * π / 2 := by
  have hpi := Real.pi_pos
  have hangle : ∀ θ : ℝ, (Body.rotate (mkCircle ⟨0, 0⟩ 1 1 ⟨0, 0⟩ false) θ).angle
      = rotateAngle 0 θ := by
    intro θ
    simp [Body.rotate, mkCircle]
  have hrot : ∀ a θ : ℝ, rotateAngle a θ =
      if a + θ > π * 2 then jsRem (a + θ) (π * 2)
      else if a + θ < 0 then π * 2 + jsRem (a + θ) π * 2
      else a + θ := fun a θ => rfl
  have h1 : (Body.rotate (mkCircle ⟨0, 0⟩ 1 1 ⟨0, 0⟩ false) (π * 2)).angle = π * 2 := by
    rw [hangle, hrot, zero_add, if_neg (lt_irrefl _), if_neg (not_lt.mpr (by positivity))]
  have hrem : jsRem (-(π / 2)) π = -(π / 2) := by
    have hq : -(π / 2) / π = -(1 / 2 : ℝ) := by
      field_simp
      ring
    have ht : jsTrunc (-(π / 2) / π) = 0 := by
      rw [hq]
      simp only [jsTrunc, if_pos (by norm_num : -(1 / 2 : ℝ) < 0)]
      norm_num
    simp [jsRem, ht]
  have h3 : (Body.rotate (mkCircle ⟨0, 0⟩ 1 1 ⟨0, 0⟩ false) (-(π / 2))).angle = π := by
    rw [hangle, hrot, zero_add, if_neg (by nlinarith), if_pos (by nlinarith), hrem]
    ring
  have hrem2 : jsRem (-(π / 2)) (π * 2) = -(π / 2) := by
    have hq : -(π / 2) / (π * 2) = -(1 / 4 : ℝ) := by
      field_simp
      ring
    have ht : jsTrunc (-(π / 2) / (π * 2)) = 0 := by
      rw [hq]
      simp only [jsTrunc, if_pos (by norm_num : -(1 / 4 : ℝ) < 0)]
      norm_num
    simp [jsRem, ht]
  have h4 : specNegativeWrap (0 + -(π / 2)) = 3 * π / 2 := by
    simp only [specNegativeWrap, zero_add, hrem2]
    ring
  refine ⟨h1, by rw [h1]; exact lt_irrefl _, h3, h4, ?_⟩
  intro h
  nlinarith

/-! ## Claim C8 -/

/-- Claim C8 (confirmed): two exactly touching circles - centers `(0,0)` and
`(10,0)`, radii `5` and `5` - produce the distinguished no-collision value:
`detectCollision` returns `false` (here `Except.ok none`), neither throwing nor
returning an MTV.  The strict bounding-box test already rejects the pair. -/
theorem touching_circles_no_collision : detectCollision c8A c8B = .ok none := by
  have hbb : detectBoxBox c8A.boundingBox c8B.boundingBox = false := by
    simp only [c8A, c8B, mkCircle, Body.boundingBox, detectBoxBox]
    norm_num
  simp [detectCollision, hbb]

/-! ## Claim C4 -/

/-- Claim C4 (confirmed): for circles with overlapping bounding boxes,
detection reports no collision exactly when the center distance exceeds the
radii sum; otherwise it returns the MTV `unit(centerA - centerB)` scaled by
`radiusA + radiusB - distance` (the vector applied to body A by the
resolution convention), whose magnitude is that difference whenever the
centers differ. -/
theorem circle_circle_detection_spec (a b : Body) (ra rb : ℝ)
    (ha : a.shape = .circle ra) (hb : b.shape = .circle rb)
    (hbb : detectBoxBox a.boundingBox b.boundingBox = true) :
    ((Vec.difference a.position [b.position]).magnitude > ra + rb →
      detectCollision a b = .ok none)
    ∧ (¬ (Vec.difference a.position [b.position]).magnitude > ra + rb →
      detectCollision a b =
        .ok (some ((Vec.difference a.position [b.position]).unit.multipliedBy
          (ra + rb - (Vec.difference a.position [b.position]).magnitude)))
      ∧ (a.position ≠ b.position →
        ((Vec.difference a.position [b.position]).unit.multipliedBy
          (ra + rb - (Vec.difference a.position [b.position]).magnitude)).magnitude
        = ra + rb - (Vec.difference a.position [b.position]).magnitude)) := by
  have hca : isCircle a = true := by simp [isCircle, ha]
  have hcb : isCircle b = true := by simp [isCircle, hb]
  have hra : a.radius = ra := by simp [Body.radius, ha]
  have hrb : b.radius = rb := by simp [Body.radius, hb]
  have hdet : detectCollision a b = .ok (detectCircleCircle a b) := by
    simp [detectCollision, hbb, hca, hcb]
  constructor
  · intro hgt
    rw [hdet]
    simp only [detectCircleCircle, hra, hrb]
    rw [if_pos hgt]
  · intro hle
    refine ⟨?_, ?_⟩
    · rw [hdet]
      simp only [detectCircleCircle, hra, hrb]
      rw [if_neg hle]
    · intro hpos
      apply magnitude_unit_mul
      · intro hzero
        apply hpos
        have := (diff_one a.position b.position)
        rw [this] at hzero
        simp only at hzero
        rw [Vec.eq_iff]
        constructor
        · linarith [hzero.1]
        · linarith [hzero.2]
      · linarith [not_lt.mp hle]

/-- Claim C4 witness: for radii `5` and `5` with centers `(0,0)` and `(8,0)`
the hypotheses hold and the detected MTV is `(-2, 0)` - magnitude `2` along
the x-axis, attributed to body A. -/
theorem circle_circle_detection_spec_witness :
    detectCollision c4A c4B = .ok (some ⟨-2, 0⟩)
    ∧ (Vec.mk (-2) 0).magnitude = 2 := by
  have hbb : detectBoxBox c4A.boundingBox c4B.boundingBox = true := by
    simp only [c4A, c4B, mkCircle, Body.boundingBox, detectBoxBox]
    norm_num
  have hdiff : Vec.difference (c4A.position) [c4B.position] = ⟨-8, 0⟩ := by
    rw [diff_one]
    simp [c4A, c4B, mkCircle]
  have hmag : (Vec.difference (c4A.position) [c4B.position]).magnitude = 8 := by
    rw [hdiff]
    simp only [Vec.magnitude]
    apply sqrt_eval
    · norm_num
    · norm_num
  have hmain := (circle_circle_detection_spec c4A c4B 5 5 rfl rfl hbb).2
    (by rw [hmag]; norm_num)
  have hvec : (Vec.difference (c4A.position) [c4B.position]).unit.multipliedBy
      (5 + 5 - (Vec.difference (c4A.position) [c4B.position]).magnitude) = ⟨-2, 0⟩ := by
    rw [hmag, hdiff]
    simp only [Vec.unit, Vec.magnitude, Vec.multipliedBy]
    rw [Vec.eq_iff]
    have h8 : Real.sqrt ((-8 : ℝ) ^ 2 + 0 ^ 2) = 8 := by
      apply sqrt_eval
      · norm_num
      · norm_num
    simp only [h8]
    norm_num
  refine ⟨?_, ?_⟩
  · rw [hmain.1, hvec]
  · simp only [Vec.magnitude]
    apply sqrt_eval
    · norm_num
    · norm_num

/-! ## Claim C3 -/

/-- A single free step of `update()` under zero local and world force: the
acceleration recomputes to the gravity vector, velocity gains it, and the
position gains the new velocity; staticness, mass and force are untouched. -/
lemma update_free_step (w : World) (b : Body) (hstatic : b.isStatic = false)
    (hmass : b.mass ≠ 0) (hforce : b.force = ⟨0, 0⟩) (hwforce : w.force = ⟨0, 0⟩) :
    (Body.update w b).velocity = Vec.addV b.velocity w.gravity
    ∧ (Body.update w b).position = Vec.addV b.position (Vec.addV b.velocity w.gravity)
    ∧ (Body.update w b).isStatic = false
    ∧ (Body.update w b).mass = b.mass
    ∧ (Body.update w b).force = ⟨0, 0⟩ := by
  have hacc : (Vec.sum [w.gravity.multipliedBy b.mass, (⟨0, 0⟩ : Vec),
      (⟨0, 0⟩ : Vec)]).dividedBy b.mass = w.gravity := by
    rw [sum_triple]
    simp only [Vec.multipliedBy, Vec.dividedBy]
    rw [Vec.eq_iff]
    constructor
    · simp only
      rw [add_zero, add_zero, mul_div_assoc, div_self hmass, mul_one]
    · simp only
      rw [add_zero, add_zero, mul_div_assoc, div_self hmass, mul_one]
  cases hb : b.shape with
  | circle r =>
    simp [Body.update, Body.updateAcceleration, Body.updateVelocity, Body.updatePosition,
      Body.updateAngularAcceleration, Body.updateAngularVelocity, Body.updateAngle,
      Body.translate, Body.rotate, hb, hstatic, hacc, hforce, hwforce, sum_pair, Vec.addV]
  | polygon vs =>
    simp [Body.update, Body.updateAcceleration, Body.updateVelocity, Body.updatePosition,
      Body.updateAngularAcceleration, Body.updateAngularVelocity, Body.updateAngle,
      Body.translate, Body.rotate, hb, hstatic, hacc, hforce, hwforce, sum_pair, Vec.addV]

/-- Closed form of `N` free steps: velocity `N·g`, displacement `g·N(N+1)/2`. -/
lemma update_iter_free (w : World) (b : Body) (hstatic : b.isStatic = false)
    (hmass : b.mass ≠ 0) (hv : b.velocity = ⟨0, 0⟩) (hforce : b.force = ⟨0, 0⟩)
    (hwforce : w.force = ⟨0, 0⟩) (N : ℕ) :
    ((Body.update w)^[N] b).velocity = w.gravity.multipliedBy (N : ℝ)
    ∧ ((Body.update w)^[N] b).position
      = Vec.addV b.position (w.gravity.multipliedBy ((N : ℝ) * ((N : ℝ) + 1) / 2))
    ∧ ((Body.update w)^[N] b).isStatic = false
    ∧ ((Body.update w)^[N] b).mass = b.mass
    ∧ ((Body.update w)^[N] b).force = ⟨0, 0⟩ := by
  induction N with
  | zero =>
    refine ⟨?_, ?_, hstatic, rfl, hforce⟩
    · rw [Function.iterate_zero_apply, hv, Vec.eq_iff]
      simp [Vec.multipliedBy]
    · rw [Function.iterate_zero_apply, Vec.eq_iff]
      simp [Vec.multipliedBy, Vec.addV]
  | succ n ih =>
    obtain ⟨ihv, ihp, ihs, ihm, ihf⟩ := ih
    have hmass2 : ((Body.update w)^[n] b).mass ≠ 0 := by rw [ihm]; exact hmass
    have step := update_free_step w ((Body.update w)^[n] b) ihs hmass2 ihf hwforce
    rw [Function.iterate_succ_apply']
    refine ⟨?_, ?_, step.2.2.1, by rw [step.2.2.2.1, ihm], step.2.2.2.2⟩
    · rw [step.1, ihv, Vec.eq_iff]
      simp only [Vec.multipliedBy, Vec.addV]
      push_cast
      constructor <;> ring
    · rw [step.2.1, ihp, ihv, Vec.eq_iff]
      simp only [Vec.multipliedBy, Vec.addV]
      push_cast
      constructor <;> ring

/-- Claim C3 (corrected): a non-static body with zero initial velocity, zero
local force and zero world force under constant gravity `g` has, after `N`
calls to `update()`, velocity `N·g` - as claimed - but position
`initial + g·N(N+1)/2`, not `g·N(N-1)/2`: `update()` adds the acceleration to
the velocity *before* adding the velocity to the position. -/
theorem integrator_gravity_closed_form (w : World) (b : Body) (N : ℕ)
    (hstatic : b.isStatic = false) (hmass : b.mass ≠ 0) (hv : b.velocity = ⟨0, 0⟩)
    (hforce : b.force = ⟨0, 0⟩) (hwforce : w.force = ⟨0, 0⟩) :
    ((Body.update w)^[N] b).velocity = w.gravity.multipliedBy (N : ℝ)
    ∧ ((Body.update w)^[N] b).position
      = Vec.addV b.position (w.gravity.multipliedBy ((N : ℝ) * ((N : ℝ) + 1) / 2)) := by
  have h := update_iter_free w b hstatic hmass hv hforce hwforce N
  exact ⟨h.1, h.2.1⟩

/-- Claim C3 counterexample: after one `update()` under gravity `(0, 1)` the
position is `(0, 1)`, while the claimed formula `initial + g·N(N-1)/2` gives
the initial position `(0, 0)` at `N = 1`. -/
theorem integrator_position_counterexample :
    ((Body.update w0)^[1] b0).position = ⟨0, 1⟩
    ∧ ((Body.update w0)^[1] b0).position
      ≠ Vec.addV b0.position (w0.gravity.multipliedBy ((1 : ℝ) * ((1 : ℝ) - 1) / 2)) := by
  have hstep := update_free_step w0 b0 rfl (by norm_num [b0, mkCircle]) rfl rfl
  have hpos : ((Body.update w0)^[1] b0).position = ⟨0, 1⟩ := by
    rw [Function.iterate_one, hstep.2.1]
    rw [Vec.eq_iff]
    norm_num [b0, w0, mkCircle, Vec.addV]
  refine ⟨hpos, ?_⟩
  rw [hpos]
  intro hcontra
  rw [Vec.eq_iff] at hcontra
  norm_num [b0, w0, mkCircle, Vec.addV, Vec.multipliedBy] at hcontra

/-- Claim C3 witness: at `N = 2` under gravity `(0, 1)` the hypotheses hold,
the velocity is `2·g` and the position is the origin plus `3·g`. -/
theorem integrator_gravity_closed_form_witness :
    b0.isStatic = false
    ∧ ((Body.update w0)^[2] b0).velocity = w0.gravity.multipliedBy ((2 : ℕ) : ℝ)
    ∧ ((Body.update w0)^[2] b0).position
      = Vec.addV b0.position
          (w0.gravity.multipliedBy (((2 : ℕ) : ℝ) * (((2 : ℕ) : ℝ) + 1) / 2)) := by
  have h := integrator_gravity_closed_form w0 b0 2 rfl (by norm_num [b0, mkCircle]) rfl rfl rfl
  exact ⟨rfl, h.1, h.2⟩

/-! ## Claim C6 -/

/-- The squared magnitude of a vector is the sum of squared components. -/
lemma magnitude_sq (v : Vec) : v.magnitude ^ 2 = v.x ^ 2 + v.y ^ 2 :=
  Real.sq_sqrt (by positivity)

/-- Momentum core of the elastic formula: one component, with the two scaling
factors abstracted and related by `m1·k1 = m2·k2`. -/
lemma elastic_core_x (v1x v2x dx k1 k2 m1 m2 : ℝ) (hk : m1 * k1 = m2 * k2) :
    (v1x - dx * k1) * m1 + (v2x - dx * -1 * k2) * m2 = v1x * m1 + v2x * m2 := by
  linear_combination (-dx) * hk

/-- Kinetic-energy core of the elastic formula, using the factor relation and
the factor-sum relation `(k1 + k2)·|d|² = 2·⟨v1 - v2, d⟩`. -/
lemma elastic_core_ke (m1 m2 k1 k2 v1x v1y v2x v2y dx dy : ℝ)
    (hk : m1 * k1 = m2 * k2)
    (hsum : k1 * (dx ^ 2 + dy ^ 2) + k2 * (dx ^ 2 + dy ^ 2)
      = 2 * ((v1x - v2x) * dx + (v1y - v2y) * dy)) :
    (1 / 2) * m1 * ((v1x - dx * k1) ^ 2 + (v1y - dy * k1) ^ 2)
    + (1 / 2) * m2 * ((v2x - dx * -1 * k2) ^ 2 + (v2y - dy * -1 * k2) ^ 2)
    = (1 / 2) * m1 * (v1x ^ 2 + v1y ^ 2) + (1 / 2) * m2 * (v2x ^ 2 + v2y ^ 2) := by
  linear_combination (-(v2x * dx + v2y * dy) - (1 / 2) * k2 * (dx ^ 2 + dy ^ 2)) * hk
    + ((1 / 2) * m1 * k1) * hsum

/-- Claim C6 (confirmed): for positive masses and distinct positions the
velocities produced by `getNewVelocities` conserve both linear momentum and
kinetic energy exactly over the reals. -/
theorem elastic_conservation (a b : Body)
    (hm1 : 0 < a.mass) (hm2 : 0 < b.mass) (hx : a.position ≠ b.position) :
    Vec.sum [(getNewVelocities a b).1.multipliedBy a.mass,
             (getNewVelocities a b).2.multipliedBy b.mass]
      = Vec.sum [a.velocity.multipliedBy a.mass, b.velocity.multipliedBy b.mass]
    ∧ (1 / 2) * a.mass * (getNewVelocities a b).1.magnitude ^ 2
      + (1 / 2) * b.mass * (getNewVelocities a b).2.magnitude ^ 2
      = (1 / 2) * a.mass * a.velocity.magnitude ^ 2
      + (1 / 2) * b.mass * b.velocity.magnitude ^ 2 := by
  have hmm : a.mass + b.mass ≠ 0 := by positivity
  have hd : ¬(a.position.x - b.position.x = 0 ∧ a.position.y - b.position.y = 0) := by
    intro hc
    apply hx
    rw [Vec.eq_iff]
    exact ⟨by linarith [hc.1], by linarith [hc.2]⟩
  have hs : 0 < (a.position.x - b.position.x) ^ 2 + (a.position.y - b.position.y) ^ 2 := by
    rcases not_and_or.mp hd with h | h
    · have : 0 < (a.position.x - b.position.x) ^ 2 := by positivity
      nlinarith [sq_nonneg (a.position.y - b.position.y)]
    · have : 0 < (a.position.y - b.position.y) ^ 2 := by positivity
      nlinarith [sq_nonneg (a.position.x - b.position.x)]
  simp only [getNewVelocities, diff_one, Vec.multipliedBy, dot_pair, magnitude_sq]
  rw [sum_pair, sum_pair, Vec.eq_iff]
  set m1 := a.mass with hm1def
  set m2 := b.mass with hm2def
  set v1x := a.velocity.x with hv1xdef
  set v1y := a.velocity.y with hv1ydef
  set v2x := b.velocity.x with hv2xdef
  set v2y := b.velocity.y with hv2ydef
  set dx := a.position.x - b.position.x with hdxdef
  set dy := a.position.y - b.position.y with hdydef
  have hSne : dx ^ 2 + dy ^ 2 ≠ 0 := hs.ne'
  have hk : m1 * (2 * m2 / (m1 + m2) *
        (((v1x - v2x) * dx + (v1y - v2y) * dy) / (dx ^ 2 + dy ^ 2)))
      = m2 * (2 * m1 / (m1 + m2) *
        (((v1x - v2x) * -1 * (dx * -1) + (v1y - v2y) * -1 * (dy * -1)) /
          ((dx * -1) ^ 2 + (dy * -1) ^ 2))) := by
    ring
  have hsum : (2 * m2 / (m1 + m2) *
        (((v1x - v2x) * dx + (v1y - v2y) * dy) / (dx ^ 2 + dy ^ 2))) * (dx ^ 2 + dy ^ 2)
      + (2 * m1 / (m1 + m2) *
        (((v1x - v2x) * -1 * (dx * -1) + (v1y - v2y) * -1 * (dy * -1)) /
          ((dx * -1) ^ 2 + (dy * -1) ^ 2))) * (dx ^ 2 + dy ^ 2)
      = 2 * ((v1x - v2x) * dx + (v1y - v2y) * dy) := by
    rw [show ((v1x - v2x) * -1 * (dx * -1) + (v1y - v2y) * -1 * (dy * -1))
        = ((v1x - v2x) * dx + (v1y - v2y) * dy) from by ring,
      show ((dx * -1) ^ 2 + (dy * -1) ^ 2) = (dx ^ 2 + dy ^ 2) from by ring]
    field_simp
    ring
  refine ⟨⟨?_, ?_⟩, ?_⟩
  · exact elastic_core_x v1x v2x dx _ _ m1 m2 hk
  · exact elastic_core_x v1y v2y dy _ _ m1 m2 hk
  · exact elastic_core_ke m1 m2 _ _ v1x v1y v2x v2y dx dy hk hsum

/-- Claim C6 witness: the conservation laws instantiated at unit masses,
positions `(0,0)` and `(1,0)`, velocities `(1,0)` and `(0,0)`. -/
theorem elastic_conservation_witness :
    Vec.sum [(getNewVelocities c6A c6B).1.multipliedBy c6A.mass,
             (getNewVelocities c6A c6B).2.multipliedBy c6B.mass]
      = Vec.sum [c6A.velocity.multipliedBy c6A.mass, c6B.velocity.multipliedBy c6B.mass]
    ∧ (1 / 2) * c6A.mass * (getNewVelocities c6A c6B).1.magnitude ^ 2
      + (1 / 2) * c6B.mass * (getNewVelocities c6A c6B).2.magnitude ^ 2
      = (1 / 2) * c6A.mass * c6A.velocity.magnitude ^ 2
      + (1 / 2) * c6B.mass * c6B.velocity.magnitude ^ 2 := by
  apply elastic_conservation
  · norm_num [c6A, mkCircle]
  · norm_num [c6B, mkCircle]
  · intro hc
    rw [Vec.eq_iff] at hc
    norm_num [c6A, c6B, mkCircle] at hc

/-! ## Claim C5 -/

/-- Translation does not change the static flag. -/
lemma translate_isStatic (b : Body) (t : Vec) : (b.translate t).isStatic = b.isStatic := by
  cases hb : b.shape <;> simp [Body.translate, hb]

/-- Translation does not change the velocity. -/
lemma translate_velocity (b : Body) (t : Vec) : (b.translate t).velocity = b.velocity := by
  cases hb : b.shape <;> simp [Body.translate, hb]

/-- Claim C5 (corrected): whenever at least one of the two bodies is
non-static, `resolveCollision` leaves the position and velocity of every
static body unchanged.  (The claim as stated - for *every* pair - fails when
both bodies are static: see the counterexample.) -/
theorem resolve_preserves_static_amended (a b a2 b2 : Body)
    (hnot : ¬(a.isStatic = true ∧ b.isStatic = true))
    (hres : resolveCollision a b = .ok (a2, b2)) :
    (a.isStatic = true → a2.position = a.position ∧ a2.velocity = a.velocity)
    ∧ (b.isStatic = true → b2.position = b.position ∧ b2.velocity = b.velocity) := by
  unfold resolveCollision at hres
  cases hdet : detectCollision a b with
  | error e =>
    rw [hdet] at hres
    cases hres
  | ok o =>
    rw [hdet] at hres
    cases o with
    | none =>
      simp only [Except.ok.injEq, Prod.mk.injEq] at hres
      obtain ⟨rfl, rfl⟩ := hres
      exact ⟨fun _ => ⟨rfl, rfl⟩, fun _ => ⟨rfl, rfl⟩⟩
    | some mtv =>
      by_cases hA : a.isStatic
      · have hB : b.isStatic = false := by
          cases hBs : b.isStatic with
          | false => rfl
          | true => exact absurd ⟨hA, hBs⟩ hnot
        simp only [hA, if_true, translate_isStatic, hB, Bool.false_eq_true,
          not_false_eq_true, if_false, Bool.not_eq_true, if_true, Except.ok.injEq,
          Prod.mk.injEq] at hres
        rw [if_neg (by simp [hA])] at hres
        obtain ⟨rfl, rfl⟩ := hres
        refine ⟨fun _ => ⟨rfl, rfl⟩, fun hBs => ?_⟩
        rw [hB] at hBs
        cases hBs
      · have hA' : a.isStatic = false := by
          cases hAs : a.isStatic with
          | false => rfl
          | true => exact absurd hAs hA
        simp only [hA', Bool.false_eq_true, if_false, translate_isStatic,
          not_false_eq_true, if_true, Except.ok.injEq, Prod.mk.injEq] at hres
        by_cases hB : b.isStatic
        · rw [if_neg (by simp [hB])] at hres
          obtain ⟨rfl, rfl⟩ := hres
          refine ⟨fun hAs => ?_, fun _ => ⟨rfl, rfl⟩⟩
          rw [hA'] at hAs
          cases hAs
        · have hB' : b.isStatic = false := by
            cases hBs : b.isStatic with
            | false => rfl
            | true => exact absurd hBs hB
          rw [if_pos (by simp [hB'])] at hres
          obtain ⟨rfl, rfl⟩ := hres
          refine ⟨fun hAs => ?_, fun hBs => ?_⟩
          · rw [hA'] at hAs
            cases hAs
          · rw [hB'] at hBs
            cases hBs

/-- Detection for two radius-5 circles at `(0,0)` and `(8,0)` (any static
flags): the bounding boxes overlap and the MTV is `(-2, 0)`. -/
lemma detect_circles_8 (s1 s2 : Bool) :
    detectCollision (mkCircle ⟨0, 0⟩ 5 1 ⟨0, 0⟩ s1) (mkCircle ⟨8, 0⟩ 5 1 ⟨0, 0⟩ s2)
      = .ok (some ⟨-2, 0⟩) := by
  have h8 : Real.sqrt (64 : ℝ) = 8 := sqrt_eval 64 8 (by norm_num) (by norm_num)
  norm_num [detectCollision, mkCircle, isCircle, Body.boundingBox, detectBoxBox,
    detectCircleCircle, Body.radius, diff_one, Vec.magnitude, Vec.unit,
    Vec.multipliedBy, h8, Vec.eq_iff]

/-- Claim C5 counterexample: for two *static* overlapping circles the claim
fails - `resolveCollision` translates the static second body by the inverse
MTV, moving its position from `(8, 0)` to `(10, 0)`. -/
theorem static_pair_translated_counterexample :
    c5A.isStatic = true ∧ c5B.isStatic = true
    ∧ resolveCollision c5A c5B = .ok (c5A, c5B.translate ⟨2, 0⟩)
    ∧ (c5B.translate ⟨2, 0⟩).position ≠ c5B.position := by
  have hdet : detectCollision c5A c5B = .ok (some ⟨-2, 0⟩) := detect_circles_8 true true
  have hstA : c5A.isStatic = true := rfl
  have hstB : c5B.isStatic = true := rfl
  have hmul : (Vec.mk (-2) 0).multipliedBy (-1) = ⟨2, 0⟩ := by
    simp [Vec.multipliedBy, Vec.eq_iff]
  refine ⟨rfl, rfl, ?_, ?_⟩
  · simp [resolveCollision, hdet, hstA, hstB, hmul, translate_isStatic]
  · simp only [c5B, mkCircle, Body.translate, sum_pair, ne_eq, Vec.eq_iff]
    norm_num

/-- Claim C5 witness: resolving the dynamic circle `c5W` against the static
circle `c5B` produces a pair whose static member keeps its position and
velocity (here derived through the amended theorem). -/
theorem resolve_preserves_static_amended_witness :
    resolveCollision c5W c5B = .ok ((c5W.translate ⟨-2, 0⟩).setVelocity ⟨0, 0⟩, c5B)
    ∧ (c5B.isStatic = true → c5B.position = c5B.position ∧ c5B.velocity = c5B.velocity) := by
  have hdet : detectCollision c5W c5B = .ok (some ⟨-2, 0⟩) := detect_circles_8 false true
  have hWstat : c5W.isStatic = false := rfl
  have hBstat : c5B.isStatic = true := rfl
  have hv : getNewVelocities (c5W.translate ⟨-2, 0⟩) c5B = (⟨0, 0⟩, ⟨0, 0⟩) := by
    simp only [c5W, c5B, mkCircle, Body.translate, sum_pair, getNewVelocities,
      diff_one, dot_pair, Vec.multipliedBy]
    norm_num [Vec.eq_iff, Prod.mk.injEq]
  have hres : resolveCollision c5W c5B
      = .ok ((c5W.translate ⟨-2, 0⟩).setVelocity ⟨0, 0⟩, c5B) := by
    simp [resolveCollision, hdet, hWstat, hBstat, translate_isStatic, hv]
  refine ⟨hres, fun h => ?_⟩
  exact (resolve_preserves_static_amended c5W c5B _ c5B
    (by intro hc; simp [c5W, mkCircle] at hc) hres).2 h

/-! ## Claims C1 and C7: the SAT selection logic -/

/-- When no entry beats the running best, the scan returns its accumulator. -/
lemma scanSmallest_none (pens : List ℝ) (i : ℕ) (idx : Option ℕ) (small : ℝ)
    (h : ∀ p ∈ pens, ¬ p < small) :
    scanSmallest pens i idx small = (idx, small) := by
  induction pens generalizing i with
  | nil => rfl
  | cons p rest ih =>
    rw [scanSmallest, if_neg (h p (List.mem_cons_self p rest))]
    exact ih (i + 1) (fun q hq => h q (List.mem_cons_of_mem _ hq))

/-- When some entry beats the running best, the scan returns the first index
attaining the minimum of the list, together with that minimum. -/
lemma scanSmallest_found (pens : List ℝ) (i : ℕ) (idx : Option ℕ) (small : ℝ)
    (hex : ∃ p ∈ pens, p < small) :
    ∃ j, j < pens.length
      ∧ (scanSmallest pens i idx small).1 = some (i + j)
      ∧ (scanSmallest pens i idx small).2 = pens.getD j 0
      ∧ pens.getD j 0 < small
      ∧ (∀ k, k < pens.length → pens.getD j 0 ≤ pens.getD k 0)
      ∧ (∀ k, k < j → pens.getD j 0 < pens.getD k 0) := by
  induction pens generalizing i idx small with
  | nil =>
    obtain ⟨p, hp, _⟩ := hex
    cases hp
  | cons p rest ih =>
    by_cases hp : p < small
    · rw [scanSmallest, if_pos hp]
      by_cases hrest : ∃ q ∈ rest, q < p
      · obtain ⟨j, hjlen, h1, h2, h3, h4, h5⟩ := ih (i + 1) (some i) p hrest
        refine ⟨j + 1, by simpa using Nat.succ_lt_succ hjlen, ?_, ?_, ?_, ?_, ?_⟩
        · rw [h1]
          congr 1
          omega
        · simpa using h2
        · rw [List.getD_cons_succ]
          exact h3.trans hp
        · intro k hk
          cases k with
          | zero =>
            rw [List.getD_cons_succ, List.getD_cons_zero]
            exact h3.le
          | succ k =>
            rw [List.getD_cons_succ, List.getD_cons_succ]
            exact h4 k (by simpa using hk)
        · intro k hk
          cases k with
          | zero =>
            rw [List.getD_cons_succ, List.getD_cons_zero]
            exact h3
          | succ k =>
            rw [List.getD_cons_succ, List.getD_cons_succ]
            exact h5 k (by omega)
      · push_neg at hrest
        rw [scanSmallest_none rest (i + 1) (some i) p
          (fun q hq => not_lt.mpr (hrest q hq))]
        refine ⟨0, by simp, by simp, by simp, by simpa using hp, ?_, by omega⟩
        intro k hk
        cases k with
        | zero => simp
        | succ k =>
          rw [List.getD_cons_zero, List.getD_cons_succ]
          have hklen : k < rest.length := by simpa using hk
          rw [List.getD_eq_getElem _ _ hklen]
          exact hrest _ (List.getElem_mem hklen)
    · rw [scanSmallest, if_neg hp]
      have hex2 : ∃ q ∈ rest, q < small := by
        obtain ⟨q, hq, hlt⟩ := hex
        rcases List.mem_cons.mp hq with rfl | hq2
        · exact absurd hlt hp
        · exact ⟨q, hq2, hlt⟩
      obtain ⟨j, hjlen, h1, h2, h3, h4, h5⟩ := ih (i + 1) idx small hex2
      have hps : rest.getD j 0 ≤ p := (h3.trans_le (not_lt.mp hp)).le
      refine ⟨j + 1, by simpa using Nat.succ_lt_succ hjlen, ?_, ?_, ?_, ?_, ?_⟩
      · rw [h1]
        congr 1
        omega
      · simpa using h2
      · rw [List.getD_cons_succ]
        exact h3
      · intro k hk
        cases k with
        | zero =>
          rw [List.getD_cons_succ, List.getD_cons_zero]
          exact hps
        | succ k =>
          rw [List.getD_cons_succ, List.getD_cons_succ]
          exact h4 k (by simpa using hk)
      · intro k hk
        cases k with
        | zero =>
          rw [List.getD_cons_succ, List.getD_cons_zero]
          exact h3.trans_le (not_lt.mp hp)
        | succ k =>
          rw [List.getD_cons_succ, List.getD_cons_succ]
          exact h5 k (by omega)

/-- Claim C1 (corrected): with a polygon operand, any zero tested penetration
makes `separatingAxis` report no collision; otherwise, *provided some tested
axis has penetration below the scan sentinel `10000000`*, the result is the
MTV built on the first axis attaining the minimum penetration - scaled to that
penetration by the magnitude setter and negated exactly when the front body on
that axis was tagged `'b'`.  (Without the sentinel proviso the claim fails:
see the counterexample, where every penetration reaches the sentinel, the scan
never fires, and the `axes[-1]` lookup faults instead of returning an MTV.) -/
theorem sat_selection_amended (bodyA bodyB : Body)
    (hpoly : (isPolygon bodyA || isPolygon bodyB) = true) :
    ((0 : ℝ) ∈ satPens bodyA bodyB → separatingAxis bodyA bodyB = .ok none)
    ∧ ((0 : ℝ) ∉ satPens bodyA bodyB →
        (∃ p ∈ satPens bodyA bodyB, p < 10000000) →
        ∃ j, FirstArgmin (satPens bodyA bodyB) j
          ∧ separatingAxis bodyA bodyB = .ok (some (satMtv bodyA bodyB j))) := by
  have hguard : ¬¬((isPolygon bodyA || isPolygon bodyB) = true) := by simp [hpoly]
  constructor
  · intro h0
    have h0x : (0 : ℝ) ∈ ((getAxes bodyA bodyB).map
        (fun a => getPenetration bodyA bodyB a)).map PenRec.penetration := h0
    simp only [separatingAxis]
    rw [if_neg hguard, if_pos h0x]
  · intro h0 hex
    have h0x : (0 : ℝ) ∉ ((getAxes bodyA bodyB).map
        (fun a => getPenetration bodyA bodyB a)).map PenRec.penetration := h0
    have hexx : ∃ p ∈ ((getAxes bodyA bodyB).map
        (fun a => getPenetration bodyA bodyB a)).map PenRec.penetration,
        p < 10000000 := hex
    obtain ⟨j, hjlen, h1, h2, h3, h4, h5⟩ :=
      scanSmallest_found _ 0 none 10000000 hexx
    refine ⟨j, ⟨hjlen, h4, h5⟩, ?_⟩
    simp only [separatingAxis]
    rw [if_neg hguard, if_neg h0x, h1]
    simp only [Nat.zero_add, satMtv, satAxes, satPens, satTags]

/-- Claim C7 (corrected): SAT invoked with no polygon operand always fails
with the invalid-argument error and never returns a value; however it is not
the only raised failure in detection - the sentinel index fault can surface
too (see the counterexample) - so every detection error is one of the two. -/
theorem sat_contract_error_amended (bodyA bodyB : Body) :
    (isPolygon bodyA = false → isPolygon bodyB = false →
      separatingAxis bodyA bodyB = .error satContractMsg)
    ∧ (∀ e, detectCollision bodyA bodyB = .error e →
        e = satContractMsg ∨ e = satIndexErrMsg) := by
  constructor
  · intro hA hB
    simp only [separatingAxis]
    rw [if_pos (by simp [hA, hB])]
  · intro e he
    simp only [detectCollision] at he
    split at he
    · cases he
    · split at he
      · cases he
      · split at he
        · simp only [separatingAxis] at he
          split at he
          · exact Or.inl (Except.error.inj he).symm
          · split at he
            · cases he
            · split at he
              · exact Or.inr (Except.error.inj he).symm
              · cases he
        · cases he

/-- The tested axes for the two overlapping unit squares. -/
lemma sq_axes : getAxes sq1 sq2 =
    [⟨0, -1⟩, ⟨-1, 0⟩, ⟨0, 1⟩, ⟨1, 0⟩, ⟨0, -1⟩, ⟨-1, 0⟩, ⟨0, 1⟩, ⟨1, 0⟩] := by
  have h1 : Real.sqrt (1 : ℝ) = 1 := Real.sqrt_one
  norm_num [getAxes, sq1, sq2, mkPolygon, isPolygon, Body.vertices, getSides, consecPairs,
    getNormals, diff_one, Vec.unit, Vec.magnitude, h1, Vec.eq_iff]

/-- The penetrations for the two overlapping unit squares. -/
lemma sq_pens : satPens sq1 sq2 =
    [3 / 4, 1 / 2, 3 / 4, 1 / 2, 3 / 4, 1 / 2, 3 / 4, 1 / 2] := by
  rw [satPens, sq_axes]
  norm_num [getPenetration, isPolygon, sq1, sq2, mkPolygon, projectPolygon, Body.vertices,
    dot_pair, jsMin, jsMax, min_def, max_def]

/-- The front tags for the two overlapping unit squares. -/
lemma sq_tags : satTags sq1 sq2 = [.a, .a, .b, .b, .a, .a, .b, .b] := by
  rw [satTags, sq_axes]
  norm_num [getPenetration, isPolygon, sq1, sq2, mkPolygon, projectPolygon, Body.vertices,
    dot_pair, jsMin, jsMax, min_def, max_def]

/-- Claim C1 witness: on the two overlapping unit squares no penetration is
zero, the sentinel proviso holds, the amended selection property applies, and
the returned MTV is `(-1/2, 0)` - the first minimal axis `(-1, 0)` scaled to
the minimal penetration `1/2`, front body `'a'`. -/
theorem sat_selection_amended_witness :
    (0 : ℝ) ∉ satPens sq1 sq2
    ∧ (∃ p ∈ satPens sq1 sq2, p < 10000000)
    ∧ (∃ j, FirstArgmin (satPens sq1 sq2) j
        ∧ separatingAxis sq1 sq2 = .ok (some (satMtv sq1 sq2 j)))
    ∧ separatingAxis sq1 sq2 = .ok (some ⟨-(1 / 2), 0⟩) := by
  have h0 : (0 : ℝ) ∉ satPens sq1 sq2 := by
    rw [sq_pens]
    norm_num
  have hex : ∃ p ∈ satPens sq1 sq2, p < 10000000 := by
    rw [sq_pens]
    refine ⟨3 / 4, by simp, by norm_num⟩
  have hpoly : (isPolygon sq1 || isPolygon sq2) = true := rfl
  have hmain := (sat_selection_amended sq1 sq2 hpoly).2 h0 hex
  refine ⟨h0, hex, hmain, ?_⟩
  have hpens' : ((getAxes sq1 sq2).map (fun a => getPenetration sq1 sq2 a)).map
      PenRec.penetration = [3 / 4, 1 / 2, 3 / 4, 1 / 2, 3 / 4, 1 / 2, 3 / 4, 1 / 2] := sq_pens
  have htags' : ((getAxes sq1 sq2).map (fun a => getPenetration sq1 sq2 a)).map
      PenRec.body = [.a, .a, .b, .b, .a, .a, .b, .b] := sq_tags
  have h0' : (0 : ℝ) ∉ ((getAxes sq1 sq2).map (fun a => getPenetration sq1 sq2 a)).map
      PenRec.penetration := h0
  have hscan : (scanSmallest
      [3 / 4, 1 / 2, 3 / 4, 1 / 2, 3 / 4, 1 / 2, 3 / 4, 1 / 2] 0 none (10000000 : ℝ)).1
      = some 1 := by
    norm_num [scanSmallest]
  simp only [separatingAxis]
  rw [if_neg (by simp [hpoly]), if_neg h0', hpens', htags', hscan, sq_axes]
  have h1 : Real.sqrt ((-1 : ℝ) ^ 2 + 0 ^ 2) = 1 := by
    rw [show ((-1 : ℝ) ^ 2 + 0 ^ 2) = 1 by norm_num]
    exact Real.sqrt_one
  norm_num [List.getD, Vec.setMagnitude, Vec.magnitude, Vec.multipliedBy, h1, Vec.eq_iff]
  decide

/-- The tested axes for the huge square against itself. -/
lemma huge_axes : getAxes hugeSq hugeSq =
    [⟨0, -1⟩, ⟨-1, 0⟩, ⟨0, 1⟩, ⟨1, 0⟩, ⟨0, -1⟩, ⟨-1, 0⟩, ⟨0, 1⟩, ⟨1, 0⟩] := by
  have h2 : Real.sqrt (400000000000000 : ℝ) = 20000000 :=
    sqrt_eval _ _ (by norm_num) (by norm_num)
  norm_num [getAxes, hugeSq, mkPolygon, isPolygon, Body.vertices, getSides, consecPairs,
    getNormals, diff_one, Vec.unit, Vec.magnitude, h2, Vec.eq_iff]

/-- The penetrations for the huge square against itself: all `2·10^7`. -/
lemma huge_pens : satPens hugeSq hugeSq =
    [20000000, 20000000, 20000000, 20000000,
     20000000, 20000000, 20000000, 20000000] := by
  rw [satPens, huge_axes]
  norm_num [getPenetration, isPolygon, hugeSq, mkPolygon, projectPolygon, Body.vertices,
    dot_pair, jsMin, jsMax, min_def, max_def]

/-- The SAT call on the huge pair faults with the index error. -/
lemma sat_huge_error : separatingAxis hugeSq hugeSq = .error satIndexErrMsg := by
  have h0' : (0 : ℝ) ∉ ((getAxes hugeSq hugeSq).map
      (fun a => getPenetration hugeSq hugeSq a)).map PenRec.penetration := by
    rw [show ((getAxes hugeSq hugeSq).map (fun a => getPenetration hugeSq hugeSq a)).map
        PenRec.penetration = satPens hugeSq hugeSq from rfl, huge_pens]
    norm_num
  have hpens' : ((getAxes hugeSq hugeSq).map (fun a => getPenetration hugeSq hugeSq a)).map
      PenRec.penetration = [20000000, 20000000, 20000000, 20000000,
        20000000, 20000000, 20000000, 20000000] := huge_pens
  have hscan : (scanSmallest [20000000, 20000000, 20000000, 20000000,
      20000000, 20000000, 20000000, 20000000] 0 none (10000000 : ℝ)).1 = none := by
    norm_num [scanSmallest]
  simp only [separatingAxis]
  rw [if_neg (by simp [show isPolygon hugeSq = true from rfl]), if_neg h0', hpens', hscan]

/-- Claim C1 counterexample: for the huge pair no tested penetration is zero,
yet `separatingAxis` does not return an MTV at all - the scan never fires and
the `axes[-1]` lookup faults. -/
theorem sat_sentinel_counterexample :
    (0 : ℝ) ∉ satPens hugeSq hugeSq
    ∧ separatingAxis hugeSq hugeSq = .error satIndexErrMsg := by
  refine ⟨?_, sat_huge_error⟩
  rw [huge_pens]
  norm_num

/-- Claim C7 counterexample: the huge pair has a polygon operand - no contract
violation - yet detection raises, and with a different error than the
invalid-argument one, so the contract violation is not the only raised failure
in detection. -/
theorem detection_typeerror_counterexample :
    isPolygon hugeSq = true
    ∧ detectCollision hugeSq hugeSq = .error satIndexErrMsg
    ∧ satIndexErrMsg ≠ satContractMsg := by
  refine ⟨rfl, ?_, by decide⟩
  have hbb : detectBoxBox hugeSq.boundingBox hugeSq.boundingBox = true := by
    norm_num [hugeSq, mkPolygon, Body.boundingBox, detectBoxBox, jsMin, jsMax,
      min_def, max_def]
  have hnc : isCircle hugeSq = false := rfl
  have hp : isPolygon hugeSq = true := rfl
  rw [detectCollision, if_neg (by simp [hbb]), if_neg (by simp [hnc]),
    if_pos (by simp [hp])]
  exact sat_huge_error

/-- Claim C7 witness: calling SAT on two circles produces exactly the
invalid-argument error. -/
theorem sat_contract_error_amended_witness :
    separatingAxis c8A c8B = .error satContractMsg :=
  (sat_contract_error_amended c8A c8B).1 rfl rfl

/-! ## Claim C9 -/

/-- Claim C9 (code bug): the claim (and the spec) say that setting the mass of
a shape body rescales its rotational inertia proportionally - `2 → 6` when a
circle of radius `2` goes from mass `1` to mass `3`.  The stored property is a
non-writable data property, so the setter faults instead, and neither the
inertia nor the mass changes; `specSetMass` is what the claim prescribes. -/
theorem mass_setter_inertia_bug :
    (mkCircle ⟨0, 0⟩ 2 1 ⟨0, 0⟩ false).rotationalInertia = 2
    ∧ Body.setMass (mkCircle ⟨0, 0⟩ 2 1 ⟨0, 0⟩ false) 3 = .error readOnlyErrMsg
    ∧ (specSetMass (mkCircle ⟨0, 0⟩ 2 1 ⟨0, 0⟩ false) 3).rotationalInertia = 6 := by
  refine ⟨?_, ?_, ?_⟩
  · norm_num [mkCircle]
  · norm_num [mkCircle, Body.setMass]
  · norm_num [mkCircle, specSetMass]

/-! ## Claim C10 -/

/-- Claim C10 (confirmed): the `position` getter returns a detached copy -
mutating the `x`/`y` fields of the object it returns leaves the stored
position unchanged - while assigning through the `position` setter writes
through to the stored object. -/
theorem position_getter_detached_copy (h : Heap) (b : BodyRef)
    (hr : b.positionRef < h.cells.length) (v u : ℝ) (p : PObj) :
    (Heap.writeY (Heap.writeX (positionGet h b).1 (positionGet h b).2 v)
        (positionGet h b).2 u).read b.positionRef = h.read b.positionRef
    ∧ (positionSet h b p).read b.positionRef = p := by
  constructor
  · simp only [positionGet, Heap.alloc, Heap.writeX, Heap.writeY, Heap.read]
    have hne : b.positionRef ≠ h.cells.length := Nat.ne_of_lt hr
    rw [List.getD_eq_getElem?_getD, List.getElem?_set_ne (fun hc => hne hc.symm),
      List.getElem?_set_ne (fun hc => hne hc.symm),
      List.getElem?_append_left hr, ← List.getD_eq_getElem?_getD]
  · simp only [positionSet, Heap.read]
    rw [List.getD_eq_getElem?_getD, List.getElem?_set_self hr]
    rfl

/-- Claim C10 witness: on a concrete heap, writing `9`/`8` into the copy
returned by the getter leaves the stored position at `(1, 2)`, and the setter
replaces it with `(3, 4)`. -/
theorem position_getter_detached_copy_witness :
    (Heap.writeY (Heap.writeX (positionGet h10 b10).1 (positionGet h10 b10).2 9)
        (positionGet h10 b10).2 8).read b10.positionRef = Heap.read h10 b10.positionRef
    ∧ (positionSet h10 b10 ⟨3, 4⟩).read b10.positionRef = ⟨3, 4⟩ := by
  have h := position_getter_detached_copy h10 b10 (by norm_num [h10, b10]) 9 8 ⟨3, 4⟩
  exact ⟨h.1, h.2⟩

end

end Phys
